import Mathlib

/-!
Verification of the JavaParser version-checker script (`script.py`).

The script is a two-step HTTP+HTML scraper: it lists the artifacts of the
`com.github.javaparser` namespace from an index page, resolves the latest
release version of each artifact from its detail page, aggregates the results
into a version map and a version-grouping, and writes four report files.

Shallow embedding conventions:
* A parsed HTML document (`BeautifulSoup` object) is a list of `Elem`
  records carrying tag name, class list and text; `find_all(tag, class_=c)`
  and `find(tag, class_=c)` become list filters over it.
* The index page is modelled by the two queries the lister performs on it:
  the enclosing-link href of each `div.im` marker element (in document
  order), and the hrefs of all anchor elements (for the regex fallback).
* Network fetches are `Except String` values: `Except.error` stands for any
  exception raised during the request or parse (the Python code catches all
  of them at the fetch boundary).
* Python string primitives (`strip`, `split`, `startswith`, substring test,
  string comparison) are implemented structurally over the character list of
  the string, so that every definition evaluates inside the kernel; the
  comparison is proved equivalent to the lexicographic order on `String`.
* `datetime.now()` values are `PyDateTime` records: `sec` is the whole-second
  part (the calendar rendering of `strftime` is abstracted to this counter,
  since second-granularity formats are injective functions of it) and
  `micro` the sub-second part included by `isoformat()` and `str()`.
* Report-file contents are strings built from the same pieces the Python
  code interpolates; the `json.dump` rendering is abstracted to a
  field-by-field serialisation that preserves every field value.
-/

namespace Script

/-! ### Python string primitives, structurally over character lists -/

/-- Lexicographic strict comparison of character lists by code point:
Python's `<` on strings. -/
def charListLt : List Char → List Char → Bool
  | [], [] => false
  | [], _ :: _ => true
  | _ :: _, [] => false
  | a :: as, b :: bs =>
    if a < b then true else if b < a then false else charListLt as bs

/-- Python's `a < b` on strings. -/
def strLtB (a b : String) : Prop := charListLt a.data b.data = true

/-- Python's `a <= b` on strings (the order `sorted` uses). -/
def strLeB (a b : String) : Prop := charListLt b.data a.data = false

instance : DecidableRel strLtB := fun a b =>
  inferInstanceAs (Decidable (charListLt a.data b.data = true))

instance : DecidableRel strLeB := fun a b =>
  inferInstanceAs (Decidable (charListLt b.data a.data = false))

/-- Python's `s.strip()`: drop whitespace from both ends. -/
def pyStrip (s : String) : String :=
  (((s.data.dropWhile Char.isWhitespace).reverse.dropWhile
      Char.isWhitespace).reverse).asString

/-- Python's `s.startswith(p)`: list-prefix test. -/
def startsWithList : List Char → List Char → Bool
  | [], _ => true
  | _ :: _, [] => false
  | a :: as, b :: bs => a == b && startsWithList as bs

/-- Boolean substring containment on character lists: Python's `in`. -/
def containsList (needle : List Char) : List Char → Bool
  | [] => startsWithList needle []
  | c :: rest => startsWithList needle (c :: rest) || containsList needle rest

/-- Python's `s.split(sep)` for a one-character separator: the (always
non-empty) list of chunks between occurrences of `sep`. -/
def splitOnChar (sep : Char) : List Char → List String
  | [] => [""]
  | c :: rest =>
    if c = sep then "" :: splitOnChar sep rest
    else
      match splitOnChar sep rest with
      | [] => [String.mk [c]]
      | s :: ss => String.mk (c :: s.data) :: ss

/-! ### The version-number pattern `^\d+\.\d+\.\d+` (re.match) -/

/-- Consume one mandatory digit then any further digits, as `\d+` does;
`none` when the input does not start with a digit. -/
def matchDigits : List Char → Option (List Char)
  | c :: rest => if c.isDigit then some (rest.dropWhile Char.isDigit) else none
  | [] => none

/-- Consume one expected character. -/
def matchChar (c : Char) : List Char → Option (List Char)
  | d :: rest => if d = c then some rest else none
  | [] => none

/-- `re.match(r'^\d+\.\d+\.\d+', s)` viewed as a Boolean: the string starts
with digits, a dot, digits, a dot, digits; anything may follow.  (`\d+.`
needs no backtracking: a maximal digit run is never followed by a digit.) -/
def matchesVersionPattern (s : String) : Bool :=
  (((((matchDigits s.data).bind (matchChar '.')).bind matchDigits).bind
      (matchChar '.')).bind matchDigits).isSome

/-! ### Parsed-document model and the BeautifulSoup queries used -/

/-- One parsed HTML element: tag name, `class` attribute entries, text. -/
structure Elem where
  tag : String
  classes : List String
  text : String
  deriving DecidableEq, Repr

/-- `soup.find_all(tag, class_=cls)`: all elements of that tag carrying the
class, in document order. -/
def findAllClass (soup : List Elem) (tag cls : String) : List Elem :=
  soup.filter (fun e => e.tag = tag ∧ cls ∈ e.classes)

/-- `soup.find(tag, class_=cls)`: the first such element, if any. -/
def findClass (soup : List Elem) (tag cls : String) : Option Elem :=
  (findAllClass soup tag cls).head?

/-! ### `get_latest_version` (script.py lines 56-92) -/

/-- The strategy-1 loop (lines 70-74): walk the `vbtn` links; on the first
one whose classes contain `release` and whose stripped text is non-empty and
matches the version pattern, return that stripped text. -/
def firstReleaseVersion : List Elem → Option String
  | [] => none
  | link :: rest =>
    if "release" ∈ link.classes then
      let version := pyStrip link.text
      if version ≠ "" ∧ matchesVersionPattern version then some version
      else firstReleaseVersion rest
    else firstReleaseVersion rest

/-- The strategy-3 block (lines 83-89): the first `a.vnum` element's stripped
text, when non-empty and matching the pattern; otherwise `none` (line 89). -/
def vnumVersion (soup : List Elem) : Option String :=
  match findClass soup "a" "vnum" with
  | none => none
  | some elem =>
    let version := pyStrip elem.text
    if version ≠ "" ∧ matchesVersionPattern version then some version
    else none

/-- The body of `get_latest_version` after a successful fetch and parse:
strategy 1 (release-tagged `vbtn`), then strategy 2 (first `vbtn`, lines
77-80), then strategy 3 (`vnum`). -/
def extractVersion (soup : List Elem) : Option String :=
  match firstReleaseVersion (findAllClass soup "a" "vbtn") with
  | some v => some v
  | none =>
    match findAllClass soup "a" "vbtn" with
    | [] => vnumVersion soup
    | first :: _ =>
      if pyStrip first.text ≠ "" ∧ matchesVersionPattern (pyStrip first.text)
      then some (pyStrip first.text)
      else vnumVersion soup

/-- `get_latest_version` including its `try`/`except` boundary (lines
60-92): a failed fetch or parse yields `None`. -/
def get_latest_version : Except String (List Elem) → Option String
  | .error _ => none
  | .ok soup => extractVersion soup

/-- Strategy 2 in isolation (lines 77-80), for stating the fallback order:
the first `vbtn` element's stripped text when it matches the pattern. -/
def strategy2 : List Elem → Option String
  | [] => none
  | first :: _ =>
    let version := pyStrip first.text
    if version ≠ "" ∧ matchesVersionPattern version then some version
    else none

/-- The predicate strategy 1 selects by: release-tagged and pattern-matching
stripped text. -/
def releaseMatch (e : Elem) : Bool :=
  decide ("release" ∈ e.classes) && matchesVersionPattern (pyStrip e.text)

/-! ### `get_all_javaparser_artifacts` (script.py lines 12-54) -/

/-- Python's `'/artifact/com.github.javaparser/' in href`. -/
def containsNamespacePath (href : String) : Bool :=
  containsList "/artifact/com.github.javaparser/".data href.data

/-- Python's `href.split('/')[-1]`: the final slash-separated segment. -/
def lastSegment (href : String) : String :=
  ((splitOnChar '/' href.data).getLast?).getD ""

/-- `re.compile(r'/artifact/com\.github\.javaparser/[^/]+\x24').search(href)`:
the href ends in `/artifact/com.github.javaparser/` followed by one
non-empty slash-free segment, the leading `/` being present (so `artifact`
is a complete path component, not the start of the string). -/
def matchesArtifactHref (href : String) : Bool :=
  match (splitOnChar '/' href.data).reverse with
  | seg :: ns :: art :: rest =>
    seg != "" && ns == "com.github.javaparser" && art == "artifact" &&
      !rest.isEmpty
  | _ => false

/-- The index page, modelled by the two queries the lister performs on it:
for each `div.im` marker element (document order) the href of its enclosing
anchor if it has one, and the hrefs of all anchor elements. -/
structure IndexPage where
  imParentHrefs : List (Option String)
  allHrefs : List String
  deriving DecidableEq, Repr

/-- Primary extraction strategy (lines 30-40): for each `div.im`, read the
enclosing link's href; when it contains the namespace path, append the final
path segment unless empty or starting with `?`. -/
def primaryArtifacts (page : IndexPage) : List String :=
  page.imParentHrefs.foldl
    (fun acc o =>
      match o with
      | none => acc
      | some href =>
        if containsNamespacePath href then
          let name := lastSegment href
          if name ≠ "" ∧ startsWithList "?".data name.data = false then
            acc ++ [name]
          else acc
        else acc)
    []

/-- Fallback strategy (lines 43-48), used only when the primary yielded
nothing: scan the anchors whose href matches the namespace-path regex,
appending each final segment not already recorded. -/
def fallbackArtifacts (page : IndexPage) : List String :=
  (page.allHrefs.filter matchesArtifactHref).foldl
    (fun acc href =>
      let name := lastSegment href
      if name ≠ "" ∧ name ∉ acc then acc ++ [name] else acc)
    []

/-- Python's `sorted(list(set(l)))`: the distinct elements in ascending
order. -/
def pySortedSet (l : List String) : List String :=
  l.dedup.insertionSort strLeB

/-- The parse phase of `get_all_javaparser_artifacts` (lines 26-50). -/
def lister (page : IndexPage) : List String :=
  let artifacts := primaryArtifacts page
  let artifacts := if artifacts = [] then fallbackArtifacts page else artifacts
  pySortedSet artifacts

/-- `get_all_javaparser_artifacts` including its `try`/`except` boundary
(lines 18-54): any fetch or parse error yields the empty list. -/
def get_all_javaparser_artifacts : Except String IndexPage → List String
  | .error _ => []
  | .ok page => lister page

/-! ### Aggregation (script.py lines 110-140) -/

/-- Lookup in an insertion-ordered association list (Python dict access). -/
def lookupGroup : List (String × List String) → String → Option (List String)
  | [], _ => none
  | (v, l) :: rest, w => if v = w then some l else lookupGroup rest w

/-- Lines 138-140: `if version not in version_groups:
version_groups[version] = []` then `version_groups[version].append(artifact)`
on an insertion-ordered dict. -/
def addToGroup : List (String × List String) → String → String →
    List (String × List String)
  | [], v, a => [(v, [a])]
  | (v', l) :: rest, v, a =>
    if v' = v then (v', l ++ [a]) :: rest
    else (v', l) :: addToGroup rest v a

/-- Lines 136-140: build `version_groups` from the `versions` dict, in
iteration order. -/
def buildVersionGroups (vm : List (String × String)) :
    List (String × List String) :=
  vm.foldl (fun g p => addToGroup g p.2 p.1) []

/-- An artifact `k` appears under version `v` in a grouping. -/
def memGroups (g : List (String × List String)) (k v : String) : Prop :=
  ∃ l, lookupGroup g v = some l ∧ k ∈ l

/-! ### Sorting as Python's `sorted` does -/

/-- Python tuple comparison on `(artifact, version)` pairs: lexicographic,
first component then second. -/
def pairLe (p q : String × String) : Prop :=
  strLtB p.1 q.1 ∨ (p.1 = q.1 ∧ strLeB p.2 q.2)

instance : DecidableRel pairLe := fun p q =>
  inferInstanceAs (Decidable (strLtB p.1 q.1 ∨ (p.1 = q.1 ∧ strLeB p.2 q.2)))

/-- Python's `sorted(versions.items())` (lines 163, 198). -/
def sortedItems (vm : List (String × String)) : List (String × String) :=
  vm.insertionSort pairLe

/-- Descending string order, for `sorted(keys, reverse=True)`. -/
def descStr (a b : String) : Prop := strLeB b a

instance : DecidableRel descStr := fun a b =>
  inferInstanceAs (Decidable (strLeB b a))

/-- Python's `sorted(version_groups.keys(), reverse=True)` (lines 144, 210). -/
def sortedKeysDesc (g : List (String × List String)) : List String :=
  (g.map Prod.fst).insertionSort descStr

/-- Python's `sorted(l)` on a string list (lines 147, 212). -/
def pySortedStr (l : List String) : List String :=
  l.insertionSort strLeB

/-! ### Timestamps -/

/-- A `datetime.now()` sample.  The calendar rendering is abstracted: `sec`
is the whole-second instant (all second-granularity `strftime` formats are
injective functions of it alone) and `micro` the sub-second component that
only `isoformat()` and `str(datetime)` include. -/
structure PyDateTime where
  sec : Nat
  micro : Nat
  deriving DecidableEq, Repr

/-- `strftime('%Y%m%d-%H%M%S')` (line 175): second granularity. -/
def fmtCompact (t : PyDateTime) : String := "D" ++ toString t.sec

/-- `strftime('%Y-%m-%d %H:%M:%S')` (line 158): second granularity. -/
def fmtPretty (t : PyDateTime) : String := "P" ++ toString t.sec

/-- `datetime.now().isoformat()` (line 181): includes microseconds. -/
def fmtIso (t : PyDateTime) : String :=
  "I" ++ toString t.sec ++ "." ++ toString t.micro

/-- `str(datetime.now())` (line 206): includes microseconds. -/
def fmtDefault (t : PyDateTime) : String :=
  "S" ++ toString t.sec ++ "." ++ toString t.micro

/-- The four `datetime.now()` call sites of one run: the XML header
(line 158), the filename timestamp (line 175), the JSON `generated` field
(line 181) and the summary `Generated:` line (line 206). -/
structure Clock where
  tXml : PyDateTime
  tStamp : PyDateTime
  tJson : PyDateTime
  tSum : PyDateTime
  deriving DecidableEq, Repr

/-- The two runs were started within the same second: all eight
`datetime.now()` samples share their whole-second part. -/
def SameSecond (c1 c2 : Clock) : Prop :=
  c1.tXml.sec = c2.tXml.sec ∧ c1.tStamp.sec = c2.tStamp.sec ∧
    c1.tJson.sec = c2.tJson.sec ∧ c1.tSum.sec = c2.tSum.sec

instance : ∀ c1 c2, Decidable (SameSecond c1 c2) := fun c1 c2 => by
  unfold SameSecond; infer_instance

/-! ### The run (`main`, script.py lines 94-217) -/

/-- The remote state one run observes: the fetch outcome of the namespace
index page and, per artifact id, of its detail page. -/
structure Env where
  index : Except String IndexPage
  detail : String → Except String (List Elem)

/-- The artifact list of the run (line 100). -/
def artifactsOf (env : Env) : List String :=
  get_all_javaparser_artifacts env.index

/-- The `versions` dict after the resolving loop (lines 110-124): one entry
per artifact that resolved, in artifact-list order (dict insertion order). -/
def versionsOf (env : Env) : List (String × String) :=
  (artifactsOf env).filterMap
    (fun a => (get_latest_version (env.detail a)).map (fun v => (a, v)))

/-- The `xml_output` string (lines 156-171). -/
def xmlOutput (versions : List (String × String)) (tXml : PyDateTime) :
    String :=
  let header :=
    "<?xml version=\"1.0\" encoding=\"UTF-8\"?>\n" ++
    "<!-- JavaParser Complete Dependencies List -->\n" ++
    "<!-- Generated on " ++ fmtPretty tXml ++ " -->\n" ++
    "<!-- Found " ++ toString versions.length ++
    " artifacts with versions -->\n\n<dependencies>"
  let body := String.join ((sortedItems versions).map (fun p =>
    "\n    <dependency>\n        <groupId>com.github.javaparser</groupId>\n" ++
    "        <artifactId>" ++ p.1 ++ "</artifactId>\n        <version>" ++
    p.2 ++ "</version>\n    </dependency>"))
  header ++ body ++ "\n</dependencies>"

/-- The value handed to `json.dump` (lines 180-185). -/
structure JsonReport where
  generated : String
  artifacts_count : Nat
  versions : List (String × String)
  version_groups : List (String × List String)
  deriving DecidableEq, Repr

/-- The JSON report of a run: `generated` is `datetime.now().isoformat()`,
`artifacts_count` is `len(versions)`. -/
def jsonReportOf (env : Env) (clk : Clock) : JsonReport :=
  { generated := fmtIso clk.tJson
    artifacts_count := (versionsOf env).length
    versions := versionsOf env
    version_groups := buildVersionGroups (versionsOf env) }

/-- Serialisation of one dict of strings, field order preserved. -/
def renderPairs (ps : List (String × String)) : String :=
  String.join (ps.map (fun p => p.1 ++ ":" ++ p.2 ++ ";"))

/-- Serialisation of the grouping dict, field order preserved. -/
def renderGroups (g : List (String × List String)) : String :=
  String.join (g.map (fun p =>
    p.1 ++ ":[" ++ String.join (List.intersperse "," p.2) ++ "];"))

/-- `json.dump(..., indent=2)` of the report, abstracted to a rendering
that keeps every field value in order (the exact JSON punctuation carries
no information the claims touch). -/
def renderJson (r : JsonReport) : String :=
  "generated:" ++ r.generated ++ ";artifacts_count:" ++
    toString r.artifacts_count ++ ";versions:" ++ renderPairs r.versions ++
    ";version_groups:" ++ renderGroups r.version_groups

/-- The CSV file as its list of lines (lines 196-199): the header, then one
row per entry of `sorted(versions.items())`. -/
def csvLines (vm : List (String × String)) : List String :=
  "artifact,version" :: (sortedItems vm).map (fun p => p.1 ++ "," ++ p.2)

/-- The CSV file content: each line is written with a trailing newline. -/
def csvContent (vm : List (String × String)) : String :=
  String.join ((csvLines vm).map (fun s => s ++ "\n"))

/-- The summary file content (lines 204-213). -/
def summaryContent (versions : List (String × String))
    (version_groups : List (String × List String)) (tSum : PyDateTime) :
    String :=
  "JavaParser Artifacts Summary\n" ++
  "Generated: " ++ fmtDefault tSum ++ "\n" ++
  "Total artifacts: " ++ toString versions.length ++ "\n" ++
  "Unique versions: " ++ toString version_groups.length ++ "\n\n" ++
  String.join ((sortedKeysDesc version_groups).map (fun version =>
    let members := (lookupGroup version_groups version).getD []
    "\nVersion " ++ version ++ " (" ++ toString members.length ++
      " artifacts):\n" ++
      String.join ((pySortedStr members).map (fun a => "  - " ++ a ++ "\n"))))

/-- Where the run stopped. -/
inductive Stage where
  | noArtifacts
  | noVersions
  | reported
  deriving DecidableEq, Repr

/-- The observable outcome of one run: where it stopped, the abort message
it printed if it aborted, and the `(filename, content)` pairs it wrote, in
write order. -/
structure MainOutput where
  stage : Stage
  abortMessage : Option String
  files : List (String × String)
  deriving DecidableEq, Repr

/-- `main` (lines 94-217) as a function of the remote state and the four
`datetime.now()` samples: early return on an empty artifact list (lines
102-104), early return on an empty `versions` dict (lines 131-133),
otherwise the four report files. -/
def pyMain (env : Env) (clk : Clock) : MainOutput :=
  let artifacts := artifactsOf env
  if artifacts = [] then
    { stage := .noArtifacts
      abortMessage := some "❌ Could not find any JavaParser artifacts!"
      files := [] }
  else
    let versions := versionsOf env
    if versions = [] then
      { stage := .noVersions
        abortMessage := some "❌ No versions found!"
        files := [] }
    else
      let version_groups := buildVersionGroups versions
      let ts := fmtCompact clk.tStamp
      { stage := .reported
        abortMessage := none
        files :=
          [ ("javaparser-all-versions-" ++ ts ++ ".json",
              renderJson (jsonReportOf env clk)),
            ("javaparser-all-dependencies-" ++ ts ++ ".xml",
              xmlOutput versions clk.tXml),
            ("javaparser-versions-" ++ ts ++ ".csv",
              csvContent versions),
            ("javaparser-summary-" ++ ts ++ ".txt",
              summaryContent versions version_groups clk.tSum) ] }

/-! ### Concrete example inputs -/

/-- A release-tagged version-selector link with text `3.25.4`. -/
def exRelElem : Elem := ⟨"a", ["vbtn", "release"], "3.25.4"⟩

/-- A detail page holding just that release-tagged link. -/
def exRelSoup : List Elem := [exRelElem]

/-- A detail page with no `vbtn` elements and one `vnum` element of text
`1.0.0-SNAPSHOT-ish`. -/
def exVnumIshSoup : List Elem := [⟨"a", ["vnum"], "1.0.0-SNAPSHOT-ish"⟩]

/-- A `vnum` element whose text matches no version pattern. -/
def exVnumBadElem : Elem := ⟨"a", ["vnum"], "SNAPSHOT"⟩

/-- A detail page holding just that non-matching `vnum` element. -/
def exVnumBadSoup : List Elem := [exVnumBadElem]

/-- A detail page where a release-tagged `vbtn` exists but its text fails
the version pattern, while the first `vbtn` text matches it. -/
def exMixedSoup : List Elem :=
  [⟨"a", ["vbtn"], "2.0.0"⟩, ⟨"a", ["vbtn", "release"], "RELEASE"⟩]

/-- An index page with six marker links naming five distinct artifacts
(`alpha` appears twice), in scrambled order. -/
def exListerPage : IndexPage :=
  ⟨[some "/artifact/com.github.javaparser/gamma",
    some "/artifact/com.github.javaparser/alpha",
    some "/artifact/com.github.javaparser/epsilon",
    some "/artifact/com.github.javaparser/beta",
    some "/artifact/com.github.javaparser/delta",
    some "/artifact/com.github.javaparser/alpha"], []⟩

/-- An index page listing the two artifacts `core` and `extra`. -/
def exIndexPage : IndexPage :=
  ⟨[some "/artifact/com.github.javaparser/core",
    some "/artifact/com.github.javaparser/extra"], []⟩

/-- Remote state where `core` resolves to `3.25.4` and `extra` resolves to
nothing. -/
def exEnv : Env :=
  ⟨.ok exIndexPage, fun a => if a = "core" then .ok exRelSoup else .ok []⟩

/-- Remote state where every fetch fails. -/
def exEnvEmpty : Env :=
  ⟨.error "connection refused", fun _ => .error "connection refused"⟩

/-- Remote state where the index lists artifacts but no artifact resolves. -/
def exEnvNoVersions : Env := ⟨.ok exIndexPage, fun _ => .ok []⟩

/-- A clock whose four samples all fall in second 100, microsecond 0. -/
def exClock1 : Clock := ⟨⟨100, 0⟩, ⟨100, 0⟩, ⟨100, 0⟩, ⟨100, 0⟩⟩

/-- A clock in the same second 100 whose JSON-report sample has a different
microsecond part. -/
def exClock2 : Clock := ⟨⟨100, 0⟩, ⟨100, 0⟩, ⟨100, 500000⟩, ⟨100, 0⟩⟩

/-! ### The computable string comparison agrees with the `String` order -/

theorem charListLt_iff :
    ∀ as bs : List Char, charListLt as bs = true ↔ List.Lex (· < ·) as bs := by
  intro as
  induction as with
  | nil =>
    intro bs
    cases bs with
    | nil =>
      constructor
      · intro h; cases h
      · intro h; cases h
    | cons b bs => exact ⟨fun _ => List.Lex.nil, fun _ => by trivial⟩
  | cons a as ih =>
    intro bs
    cases bs with
    | nil =>
      constructor
      · intro h; cases h
      · intro h; cases h
    | cons b bs =>
      by_cases h1 : a < b
      · simp only [charListLt, if_pos h1]
        exact ⟨fun _ => List.Lex.rel h1, fun _ => by trivial⟩
      · by_cases h2 : b < a
        · simp only [charListLt, if_neg h1, if_pos h2]
          constructor
          · intro h; cases h
          · intro h
            cases h with
            | cons h' => exact absurd h2 (lt_irrefl a)
            | rel h' => exact absurd h' h1
        · have hab : a = b := le_antisymm (not_lt.mp h2) (not_lt.mp h1)
          subst hab
          simp only [charListLt, if_neg h1, if_neg h2]
          constructor
          · intro h
            exact List.Lex.cons ((ih bs).mp h)
          · intro h
            cases h with
            | cons h' => exact (ih bs).mpr h'
            | rel h' => exact absurd h' h1

theorem strLtB_iff (a b : String) : strLtB a b ↔ a < b :=
  (charListLt_iff a.data b.data).trans String.lt_iff_toList_lt.symm

theorem strLeB_iff (a b : String) : strLeB a b ↔ a ≤ b := by
  have h : (charListLt b.data a.data = true) ↔ b < a := strLtB_iff b a
  unfold strLeB
  rw [← Bool.not_eq_true, h]
  exact not_lt

instance : IsTrans String strLeB where
  trans a b c h1 h2 :=
    (strLeB_iff a c).mpr
      (le_trans ((strLeB_iff a b).mp h1) ((strLeB_iff b c).mp h2))

instance : IsTotal String strLeB where
  total a b := (le_total a b).imp (strLeB_iff a b).mpr (strLeB_iff b a).mpr

theorem pairLe_iff (p q : String × String) :
    pairLe p q ↔ p.1 < q.1 ∨ (p.1 = q.1 ∧ p.2 ≤ q.2) :=
  or_congr (strLtB_iff p.1 q.1) (and_congr Iff.rfl (strLeB_iff p.2 q.2))

instance : IsTrans (String × String) pairLe where
  trans p q r hpq hqr := by
    rw [pairLe_iff] at hpq hqr ⊢
    rcases hpq with h1 | ⟨e1, l1⟩
    · rcases hqr with h2 | ⟨e2, _⟩
      · exact Or.inl (lt_trans h1 h2)
      · exact Or.inl (e2 ▸ h1)
    · rcases hqr with h2 | ⟨e2, l2⟩
      · exact Or.inl (e1 ▸ h2)
      · exact Or.inr ⟨e1.trans e2, le_trans l1 l2⟩

instance : IsTotal (String × String) pairLe where
  total p q := by
    rw [pairLe_iff, pairLe_iff]
    rcases lt_trichotomy p.1 q.1 with h | h | h
    · exact Or.inl (Or.inl h)
    · rcases le_total p.2 q.2 with h2 | h2
      · exact Or.inl (Or.inr ⟨h, h2⟩)
      · exact Or.inr (Or.inr ⟨h.symm, h2⟩)
    · exact Or.inr (Or.inl h)

theorem pairLe_fst_le {p q : String × String} (h : pairLe p q) :
    p.1 ≤ q.1 := by
  rcases (pairLe_iff p q).mp h with h1 | ⟨e, _⟩
  · exact le_of_lt h1
  · exact le_of_eq e

/-! ### `pySortedSet` produces a sorted, duplicate-free list -/

theorem pySortedSet_sorted (l : List String) :
    (pySortedSet l).Sorted (· ≤ ·) :=
  (List.sorted_insertionSort strLeB l.dedup).imp
    (fun h => (strLeB_iff _ _).mp h)

theorem pySortedSet_nodup (l : List String) : (pySortedSet l).Nodup :=
  (List.perm_insertionSort strLeB l.dedup).nodup_iff.mpr (List.nodup_dedup l)

/-! ### Round-trip lemmas for `buildVersionGroups` -/

theorem lookupGroup_addToGroup_self (g : List (String × List String))
    (v a : String) :
    lookupGroup (addToGroup g v a) v =
      some ((lookupGroup g v).getD [] ++ [a]) := by
  induction g with
  | nil => simp [addToGroup, lookupGroup]
  | cons p rest ih =>
    obtain ⟨v', l⟩ := p
    by_cases h : v' = v
    · subst h
      simp [addToGroup, lookupGroup]
    · simp [addToGroup, lookupGroup, h, ih]

theorem lookupGroup_addToGroup_ne (g : List (String × List String))
    (v a w : String) (hw : w ≠ v) :
    lookupGroup (addToGroup g v a) w = lookupGroup g w := by
  induction g with
  | nil =>
    have h : ¬ v = w := fun h => hw h.symm
    simp [addToGroup, lookupGroup, h]
  | cons p rest ih =>
    obtain ⟨v', l⟩ := p
    by_cases h : v' = v
    · subst h
      have h2 : ¬ v' = w := fun h => hw h.symm
      simp [addToGroup, lookupGroup, h2]
    · by_cases h2 : v' = w
      · subst h2
        simp [addToGroup, lookupGroup, h]
      · simp [addToGroup, lookupGroup, h, h2, ih]

theorem mem_getD_lookupGroup (g : List (String × List String))
    (k v : String) :
    k ∈ (lookupGroup g v).getD [] ↔ memGroups g k v := by
  unfold memGroups
  cases h : lookupGroup g v with
  | none => simp
  | some l => simp

theorem memGroups_addToGroup (g : List (String × List String))
    (v a k w : String) :
    memGroups (addToGroup g v a) k w ↔ (w = v ∧ k = a) ∨ memGroups g k w := by
  by_cases hw : w = v
  · rw [hw]
    unfold memGroups
    rw [lookupGroup_addToGroup_self]
    constructor
    · rintro ⟨l, hl, hk⟩
      rw [← Option.some.inj hl] at hk
      rcases List.mem_append.mp hk with hk2 | hk2
      · exact Or.inr ((mem_getD_lookupGroup g k v).mp hk2)
      · exact Or.inl ⟨rfl, List.mem_singleton.mp hk2⟩
    · rintro (⟨-, rfl⟩ | hmem)
      · exact ⟨_, rfl, List.mem_append.mpr (Or.inr (List.mem_singleton.mpr rfl))⟩
      · exact ⟨_, rfl,
          List.mem_append.mpr (Or.inl ((mem_getD_lookupGroup g k v).mpr hmem))⟩
  · unfold memGroups
    rw [lookupGroup_addToGroup_ne g v a w hw]
    constructor
    · exact fun h => Or.inr h
    · rintro (⟨h, -⟩ | h)
      · exact absurd h hw
      · exact h

theorem memGroups_foldl (vm : List (String × String))
    (g0 : List (String × List String)) (k w : String) :
    memGroups (vm.foldl (fun g p => addToGroup g p.2 p.1) g0) k w ↔
      (k, w) ∈ vm ∨ memGroups g0 k w := by
  induction vm generalizing g0 with
  | nil => simp
  | cons p rest ih =>
    obtain ⟨a, v⟩ := p
    rw [List.foldl_cons, ih, memGroups_addToGroup]
    constructor
    · rintro (h | ⟨rfl, rfl⟩ | h)
      · exact Or.inl (List.mem_cons_of_mem _ h)
      · exact Or.inl (List.mem_cons_self _ _)
      · exact Or.inr h
    · rintro (h | h)
      · rcases List.mem_cons.mp h with h | h
        · cases h
          exact Or.inr (Or.inl ⟨rfl, rfl⟩)
        · exact Or.inl h
      · exact Or.inr (Or.inr h)

/-! ### Resolver lemmas -/

theorem matchesVersionPattern_ne_empty {v : String}
    (h : matchesVersionPattern v = true) : v ≠ "" := by
  intro he
  subst he
  exact absurd h (by decide)

theorem firstReleaseVersion_eq (links : List Elem) :
    firstReleaseVersion links =
      ((links.filter releaseMatch).head?).map (fun e => pyStrip e.text) := by
  induction links with
  | nil => rfl
  | cons l rest ih =>
    by_cases hr : "release" ∈ l.classes
    · by_cases hp : matchesVersionPattern (pyStrip l.text) = true
      · have hne : pyStrip l.text ≠ "" := matchesVersionPattern_ne_empty hp
        have hcond : pyStrip l.text ≠ "" ∧ matchesVersionPattern (pyStrip l.text) :=
          ⟨hne, hp⟩
        have hm : releaseMatch l = true := by
          unfold releaseMatch
          simp [hr, hp]
        simp [firstReleaseVersion, hr, hcond, List.filter_cons, hm]
      · have hcond : ¬ (pyStrip l.text ≠ "" ∧ matchesVersionPattern (pyStrip l.text)) :=
          fun hc => hp hc.2
        have hm : releaseMatch l = false := by
          unfold releaseMatch
          simp [hp]
        simp [firstReleaseVersion, hr, hcond, List.filter_cons, hm, ih]
    · have hm : releaseMatch l = false := by
        unfold releaseMatch
        simp [hr]
      simp [firstReleaseVersion, hr, List.filter_cons, hm, ih]

/-! ### Claim theorems -/

/-- C1: for every version map, the grouping built from it satisfies
round-trip consistency: artifact `k` maps to version `v` in the version map
exactly when `k` is a member of the grouping's entry for `v`. -/
theorem versionGroups_roundtrip (vm : List (String × String)) (k v : String) :
    (k, v) ∈ vm ↔ memGroups (buildVersionGroups vm) k v := by
  unfold buildVersionGroups
  rw [memGroups_foldl]
  simp [memGroups, lookupGroup]

/-- C2: whenever the detail page holds at least one release-tagged `vbtn`
link whose stripped text matches the version pattern, the resolver returns
the stripped text of the first such link. -/
theorem resolver_release_first (soup : List Elem) (l : Elem) (rest : List Elem)
    (h : (findAllClass soup "a" "vbtn").filter releaseMatch = l :: rest) :
    extractVersion soup = some (pyStrip l.text) := by
  have h1 : firstReleaseVersion (findAllClass soup "a" "vbtn") =
      some (pyStrip l.text) := by
    rw [firstReleaseVersion_eq, h]
    rfl
  simp [extractVersion, h1]

/-- C2 witness: on a page holding the release-tagged link of text `3.25.4`,
the resolver returns `3.25.4`. -/
theorem resolver_release_first_witness :
    extractVersion exRelSoup = some "3.25.4" :=
  (resolver_release_first exRelSoup exRelElem [] (by decide)).trans (by decide)

/-- C3: any exception during fetch or parse of a detail page is caught at
the resolver boundary and mapped to `none`. -/
theorem resolver_never_raises (e : String) :
    get_latest_version (Except.error e) = none := rfl

/-- C5 counterexample: the text `1.0.0-SNAPSHOT-ish` does match the
numeric-prefix pattern, so on a page with no `vbtn` and one such `vnum`
element the resolver returns it rather than `none`. -/
theorem resolver_vnum_ish_counterexample :
    matchesVersionPattern "1.0.0-SNAPSHOT-ish" = true ∧
      extractVersion exVnumIshSoup = some "1.0.0-SNAPSHOT-ish" ∧
      ¬ (extractVersion exVnumIshSoup = none) := by decide

/-- C5 amended: on that page the resolver returns
`some "1.0.0-SNAPSHOT-ish"` because the text does start with
`digits.digits.digits`; in general, on a page with no `vbtn` elements whose
first `vnum` element is `e`, the resolver returns `none` exactly when the
stripped text of `e` fails the pattern, and returns that stripped text
whenever it matches. -/
theorem resolver_vnum_amended :
    extractVersion exVnumIshSoup = some "1.0.0-SNAPSHOT-ish" ∧
    ∀ (soup : List Elem) (e : Elem),
      findAllClass soup "a" "vbtn" = [] →
      findClass soup "a" "vnum" = some e →
      (extractVersion soup = none ↔
        matchesVersionPattern (pyStrip e.text) = false) ∧
      (matchesVersionPattern (pyStrip e.text) = true →
        extractVersion soup = some (pyStrip e.text)) := by
  constructor
  · decide
  · intro soup e h1 h2
    have hbody : extractVersion soup = vnumVersion soup := by
      simp [extractVersion, h1, firstReleaseVersion]
    cases hp : matchesVersionPattern (pyStrip e.text) with
    | false =>
      have hnone : extractVersion soup = none := by
        simp [hbody, vnumVersion, h2, hp]
      exact ⟨⟨fun _ => rfl, fun _ => hnone⟩, fun h => nomatch h⟩
    | true =>
      have hne : pyStrip e.text ≠ "" := matchesVersionPattern_ne_empty hp
      have hsome : extractVersion soup = some (pyStrip e.text) := by
        simp [hbody, vnumVersion, h2, hp, hne]
      refine ⟨⟨fun hn => ?_, fun hf => nomatch hf⟩, fun _ => hsome⟩
      rw [hsome] at hn
      exact absurd hn (by simp)

/-- C5 amended witness: the `vnum`-only page of text `SNAPSHOT` resolves to
`none`, and the `vnum`-only page of text `1.0.0-SNAPSHOT-ish` resolves to
its stripped text. -/
theorem resolver_vnum_amended_witness :
    extractVersion exVnumBadSoup = none ∧
      extractVersion exVnumIshSoup =
        some (pyStrip (Elem.mk "a" ["vnum"] "1.0.0-SNAPSHOT-ish").text) :=
  ⟨((resolver_vnum_amended.2 exVnumBadSoup exVnumBadElem (by decide)
      (by decide)).1).mpr (by decide),
    (resolver_vnum_amended.2 exVnumIshSoup
      (Elem.mk "a" ["vnum"] "1.0.0-SNAPSHOT-ish") (by decide)
      (by decide)).2 (by decide)⟩

/-- C6 counterexample: on a page whose release-tagged `vbtn` has
non-matching text `RELEASE` while the first `vbtn` has text `2.0.0`,
strategies 1 and 3 both fail yet the resolver returns `2.0.0` — strategy 2
fires even though a release-tagged link exists. -/
theorem resolver_strategy2_counterexample :
    (∃ l, l ∈ findAllClass exMixedSoup "a" "vbtn" ∧ "release" ∈ l.classes) ∧
      firstReleaseVersion (findAllClass exMixedSoup "a" "vbtn") = none ∧
      vnumVersion exMixedSoup = none ∧
      extractVersion exMixedSoup = some "2.0.0" :=
  ⟨⟨⟨"a", ["vbtn", "release"], "RELEASE"⟩, by decide, by decide⟩,
    by decide, by decide, by decide⟩

/-- C6 amended: the resolver is the ordered fallback of strategy 1
(first release-tagged `vbtn` with pattern-matching text), then strategy 2
(first `vbtn` when its text matches — applied whenever strategy 1 found
nothing, even if a release-tagged link with non-matching text exists), then
strategy 3 (`vnum`). -/
theorem resolver_fallback_order (soup : List Elem) :
    extractVersion soup =
      ((firstReleaseVersion (findAllClass soup "a" "vbtn")).orElse
        (fun _ => (strategy2 (findAllClass soup "a" "vbtn")).orElse
          (fun _ => vnumVersion soup))) := by
  unfold extractVersion
  cases h : firstReleaseVersion (findAllClass soup "a" "vbtn") with
  | some v => rfl
  | none =>
    cases hl : findAllClass soup "a" "vbtn" with
    | nil => rfl
    | cons first rest =>
      by_cases hc : (pyStrip first.text ≠ "" ∧
          matchesVersionPattern (pyStrip first.text))
      · simp [strategy2, hc, Option.orElse]
      · simp [strategy2, hc, Option.orElse]

/-- C7: the lister always returns an ascending, duplicate-free list; on the
page with five distinct artifacts and one duplicate it returns exactly the
five, sorted. -/
theorem lister_sorted_nodup :
    (∀ page : IndexPage,
      (lister page).Sorted (· ≤ ·) ∧ (lister page).Nodup) ∧
    lister exListerPage = ["alpha", "beta", "delta", "epsilon", "gamma"] := by
  constructor
  · intro page
    exact ⟨pySortedSet_sorted _, pySortedSet_nodup _⟩
  · decide

/-- C8: for a non-empty version map the CSV lines are the header
`artifact,version` followed by exactly one row per entry, the rows being
the entries sorted ascending by artifact id. -/
theorem csv_structure (vm : List (String × String)) (_hne : vm ≠ []) :
    (csvLines vm).head? = some "artifact,version" ∧
    (csvLines vm).length = vm.length + 1 ∧
    ((sortedItems vm).map Prod.fst).Sorted (· ≤ ·) ∧
    csvLines vm = "artifact,version" ::
      (sortedItems vm).map (fun p => p.1 ++ "," ++ p.2) ∧
    List.Perm (sortedItems vm) vm := by
  refine ⟨rfl, ?_, ?_, rfl, List.perm_insertionSort pairLe vm⟩
  · have hlen : (sortedItems vm).length = vm.length :=
      (List.perm_insertionSort pairLe vm).length_eq
    simp [csvLines, hlen]
  · have hs : (sortedItems vm).Sorted pairLe :=
      List.sorted_insertionSort pairLe vm
    exact List.pairwise_map.mpr (hs.imp (fun h => pairLe_fst_le h))

/-- C8 witness: the CSV lines of the two-entry version map start with the
header and have three lines. -/
theorem csv_structure_witness :
    (csvLines [("b", "2.0.0"), ("a", "1.0.0")]).head? =
        some "artifact,version" ∧
      (csvLines [("b", "2.0.0"), ("a", "1.0.0")]).length = 3 := by
  have h := csv_structure [("b", "2.0.0"), ("a", "1.0.0")] (by decide)
  exact ⟨h.1, h.2.1⟩

/-- C4: persisted files are written exactly when some artifact resolved;
an empty artifact list aborts before resolving with the discovery-failure
message and no files, and an empty version map aborts after resolving,
before reporting, with the no-versions message and no files. -/
theorem run_writes_iff_versions (env : Env) (clk : Clock) :
    ((pyMain env clk).files ≠ [] ↔ versionsOf env ≠ []) ∧
    (artifactsOf env = [] →
      (pyMain env clk).stage = Stage.noArtifacts ∧
      (pyMain env clk).abortMessage =
        some "❌ Could not find any JavaParser artifacts!" ∧
      (pyMain env clk).files = []) ∧
    (artifactsOf env ≠ [] → versionsOf env = [] →
      (pyMain env clk).stage = Stage.noVersions ∧
      (pyMain env clk).abortMessage = some "❌ No versions found!" ∧
      (pyMain env clk).files = []) := by
  by_cases h1 : artifactsOf env = []
  · have h2 : versionsOf env = [] := by
      unfold versionsOf
      rw [h1]
      rfl
    refine ⟨by simp [pyMain, h1, h2], fun _ => by simp [pyMain, h1],
      fun hc => absurd h1 hc⟩
  · by_cases h2 : versionsOf env = []
    · refine ⟨by simp [pyMain, h1, h2], fun hc => absurd hc h1,
        fun _ _ => by simp [pyMain, h1, h2]⟩
    · refine ⟨by simp [pyMain, h1, h2], fun hc => absurd hc h1,
        fun _ hc => absurd hc h2⟩

/-- C4 witness: the all-fetches-fail run aborts at discovery with no files,
and the no-version run aborts after resolving with no files. -/
theorem run_writes_iff_versions_witness :
    (pyMain exEnvEmpty exClock1).stage = Stage.noArtifacts ∧
      (pyMain exEnvEmpty exClock1).files = [] ∧
      (pyMain exEnvNoVersions exClock1).stage = Stage.noVersions ∧
      (pyMain exEnvNoVersions exClock1).files = [] := by
  have h1 := (run_writes_iff_versions exEnvEmpty exClock1).2.1 (by decide)
  have h2 := (run_writes_iff_versions exEnvNoVersions exClock1).2.2
    (by decide) (by decide)
  exact ⟨h1.1, h1.2.2, h2.1, h2.2.2⟩

/-- C9 counterexample: two runs in the same second over identical remote
state target the same filenames, yet the written contents differ, because
the JSON report embeds the microsecond-resolution `isoformat()` instant. -/
theorem run_same_second_counterexample :
    SameSecond exClock1 exClock2 ∧
      (pyMain exEnv exClock1).files.map Prod.fst =
        (pyMain exEnv exClock2).files.map Prod.fst ∧
      ¬ ((pyMain exEnv exClock1).files = (pyMain exEnv exClock2).files) := by
  decide

/-- C9 amended: two runs in the same second over identical remote state
attempt the same four filenames (the second overwriting the first), and the
XML and CSV contents coincide; the JSON and summary files may differ in
their sub-second generation instants. -/
theorem run_same_second_amended (env : Env) (c1 c2 : Clock)
    (h : SameSecond c1 c2) :
    (pyMain env c1).files.map Prod.fst =
      (pyMain env c2).files.map Prod.fst ∧
    xmlOutput (versionsOf env) c1.tXml = xmlOutput (versionsOf env) c2.tXml ∧
    csvContent (versionsOf env) = csvContent (versionsOf env) := by
  obtain ⟨hx, hs, hj, hm⟩ := h
  have hxml : fmtPretty c1.tXml = fmtPretty c2.tXml := by
    unfold fmtPretty
    rw [hx]
  have hstamp : fmtCompact c1.tStamp = fmtCompact c2.tStamp := by
    unfold fmtCompact
    rw [hs]
  refine ⟨?_, ?_, rfl⟩
  · by_cases h1 : artifactsOf env = []
    · simp [pyMain, h1]
    · by_cases h2 : versionsOf env = []
      · simp [pyMain, h1, h2]
      · simp [pyMain, h1, h2, hstamp]
  · unfold xmlOutput
    rw [hxml]

/-- C9 amended witness: the two same-second clocks produce equal filename
lists and equal XML content on the example remote state. -/
theorem run_same_second_amended_witness :
    (pyMain exEnv exClock1).files.map Prod.fst =
        (pyMain exEnv exClock2).files.map Prod.fst ∧
      xmlOutput (versionsOf exEnv) exClock1.tXml =
        xmlOutput (versionsOf exEnv) exClock2.tXml ∧
      csvContent (versionsOf exEnv) = csvContent (versionsOf exEnv) :=
  run_same_second_amended exEnv exClock1 exClock2 (by decide)

/-- C10: whenever a run writes files, the `artifacts_count` field of its
JSON report equals the number of entries of the version map — on the
example state it is 1 while the lister discovered 2 artifacts. -/
theorem json_count_is_resolved_count (env : Env) (clk : Clock)
    (_h : (pyMain env clk).files ≠ []) :
    (jsonReportOf env clk).artifacts_count = (versionsOf env).length ∧
    (jsonReportOf exEnv clk).artifacts_count = 1 ∧
    (artifactsOf exEnv).length = 2 :=
  ⟨rfl, rfl, by decide⟩

/-- C10 witness: on the example run the JSON count equals the version-map
size. -/
theorem json_count_is_resolved_count_witness :
    (jsonReportOf exEnv exClock1).artifacts_count =
      (versionsOf exEnv).length :=
  (json_count_is_resolved_count exEnv exClock1 (by decide)).1

end Script
